import Mathlib

/-!
Verification of the Empathy Engine core (emotion detection, intensity
estimation, prosody mapping, synthesis dispatch) against its specification.

The Python sources are shallowly embedded:
* strings are lists of characters; the ASCII fragment of Python's character
  classes is modelled (the repository only feeds ASCII text to these paths);
* Python floats written as decimal literals are modelled as exact rationals,
  written as explicit fractions (1.15 becomes 115/100);
* side effects (HTTP calls, the filesystem, the logger) are modelled as
  explicit parameters and returned data; a raised exception is an
  Except.error value.
-/

/-- Python regex class \s (ASCII fragment): space, tab, newline, carriage
return, vertical tab, form feed. -/
def pyIsSpace (c : Char) : Bool :=
  c == ' ' || c == '\t' || c == '\n' || c == '\r' ||
    c == Char.ofNat 11 || c == Char.ofNat 12

/-- Embedding of re.sub(r"\s+", " ", text) from
EmotionDetector._clean_text (src/emotion_detector.py line 78): every maximal
run of whitespace is replaced by one space. -/
def collapseWs : List Char → List Char
  | [] => []
  | [c] => if pyIsSpace c then [' '] else [c]
  | c :: d :: rest =>
    if pyIsSpace c then
      if pyIsSpace d then collapseWs (d :: rest)
      else ' ' :: collapseWs (d :: rest)
    else c :: collapseWs (d :: rest)

/-- Embedding of Python str.strip() (ASCII fragment): remove leading and
trailing whitespace (src/emotion_detector.py line 78). -/
def pyStrip (l : List Char) : List Char :=
  ((l.dropWhile pyIsSpace).reverse.dropWhile pyIsSpace).reverse

/-- One step of the scan of re.sub(r"http\S+", "", text): does a match of
the pattern start at the current position (current char c, remainder rest)?
It requires the literal "http" followed by at least one non-whitespace
character. -/
def urlMatchAt (c : Char) (rest : List Char) : Bool :=
  c == 'h' && rest.take 3 == ['t', 't', 'p'] &&
    (match rest.drop 3 with
     | d :: _ => !pyIsSpace d
     | [] => false)

/-- Fuelled left-to-right scan of re.sub(r"http\S+", "", text)
(src/emotion_detector.py line 80): at each position, if the pattern matches,
the (greedy, non-overlapping) match is dropped and the scan resumes after
it, else the character is kept.  The fuel only serves structural
termination; it is called with fuel = length, which always suffices because
every step consumes at least one character. -/
def removeUrlsF : ℕ → List Char → List Char
  | _, [] => []
  | 0, l => l
  | fuel + 1, c :: rest =>
    if urlMatchAt c rest then
      removeUrlsF fuel ((rest.drop 3).dropWhile fun d => !pyIsSpace d)
    else c :: removeUrlsF fuel rest

/-- Embedding of re.sub(r"http\S+", "", text). -/
def removeUrls (l : List Char) : List Char := removeUrlsF l.length l

/-- EmotionDetector._clean_text (src/emotion_detector.py lines 67-81):
first collapse whitespace runs and strip the ends, then remove URLs —
in that order, exactly as in the source. -/
def cleanText (l : List Char) : List Char := removeUrls (pyStrip (collapseWs l))

/-- Python str.lower (ASCII fragment), written directly on the character
list so that it is kernel-computable. -/
def pyLower (s : String) : String := ⟨s.data.map Char.toLower⟩

/-- VoiceModulator.emotion_mapping (src/voice_modulator.py lines 69-81):
emotion label → (rate_modifier, pitch_modifier, volume_modifier). -/
def emotion_mapping : List (String × (ℚ × ℚ × ℚ)) :=
  [("happy", (12/10, 115/100, 11/10)),
   ("excited", (13/10, 12/10, 115/100)),
   ("sad", (9/10, 85/100, 9/10)),
   ("angry", (11/10, 105/100, 12/10)),
   ("fear", (115/100, 11/10, 95/100)),
   ("neutral", (1, 1, 1)),
   ("surprise", (115/100, 12/10, 115/100)),
   ("positive", (11/10, 11/10, 105/100)),
   ("negative", (95/100, 95/100, 95/100)),
   ("concerned", (95/100, 95/100, 105/100))]

/-- VoiceModulator.intensity_mapping (src/voice_modulator.py lines 84-88). -/
def intensity_mapping : List (String × ℚ) :=
  [("low", 1/2), ("medium", 1), ("high", 3/2)]

/-- apply_intensity from VoiceModulator.generate_speech
(src/voice_modulator.py lines 321-327). -/
def apply_intensity (intensity_factor base_mod : ℚ) : ℚ :=
  if 1 < base_mod then 1 + (base_mod - 1) * intensity_factor
  else if base_mod < 1 then 1 - (1 - base_mod) * intensity_factor
  else base_mod

/-- Modifier computation of VoiceModulator.generate_speech
(src/voice_modulator.py lines 309-331): look up the base triple (neutral
row (1,1,1) as dict-get default), look up the intensity factor (default
1.0), scale each component. -/
def generate_speech_modifiers (emotion intensity : String) : ℚ × ℚ × ℚ :=
  let m := (emotion_mapping.lookup (pyLower emotion)).getD (1, 1, 1)
  let f := (intensity_mapping.lookup (pyLower intensity)).getD 1
  (apply_intensity f m.1, apply_intensity f m.2.1, apply_intensity f m.2.2)

/-- Floor of a rational, computed by floor division of numerator by
denominator (kernel-computable form of the floor function). -/
def ratFloor (q : ℚ) : ℤ := q.num.fdiv q.den

/-- Python round(x, 2) on exact rationals: round x*100 half-to-even, then
divide by 100. -/
def pyRound2 (q : ℚ) : ℚ :=
  let f : ℤ := ratFloor (q * 100)
  let r : ℚ := q * 100 - f
  ((if r < 1/2 then f
    else if 1/2 < r then f + 1
    else if f % 2 = 0 then f else f + 1 : ℤ) : ℚ) / 100

/-- EmotionDetector._basic_sentiment_analysis (src/emotion_detector.py
lines 83-124), as a function of the polarity and subjectivity produced by
the external lexical scorer (TextBlob): emotion label and final rounded
score. -/
def basic_sentiment_analysis (polarity subjectivity : ℚ) : String × ℚ :=
  let es : String × ℚ :=
    if 3/10 < polarity then ("happy", min 1 (1/2 + polarity))
    else if polarity < -(3/10) then ("sad", min 1 (1/2 - polarity))
    else if 1/10 < polarity then ("positive", 1/2 + polarity)
    else if polarity < -(1/10) then ("negative", 1/2 - polarity)
    else ("neutral", 1 - |polarity|)
  (es.1, pyRound2 (es.2 * (1/2 + subjectivity / 2)))

/-- Python str.isupper for a single character (ASCII fragment). -/
def pyIsUpper (c : Char) : Bool := 'A' ≤ c && c ≤ 'Z'

/-- Count of '!' characters (src/emotion_detector.py line 216). -/
def exclamationCount (text : List Char) : ℕ := text.countP (· == '!')

/-- Count of '?' characters (src/emotion_detector.py line 217). -/
def questionCount (text : List Char) : ℕ := text.countP (· == '?')

/-- caps_ratio (src/emotion_detector.py line 218): uppercase letters
divided by the number of non-space characters (at least 1). -/
def capsRatio (text : List Char) : ℚ :=
  (text.countP pyIsUpper : ℚ) /
    ((max (text.filter fun c => c != ' ').length 1 : ℕ) : ℚ)

/-- Intensity tier of EmotionDetector.analyze_with_intensity
(src/emotion_detector.py lines 207-223): base tier from the score, then
the escalation step exactly as written in the source. -/
def intensityTier (score : ℚ) (text : List Char) : String :=
  let intensity :=
    if score < 4/10 then "low"
    else if score < 7/10 then "medium"
    else "high"
  if 2 < exclamationCount text ∨ 3/10 < capsRatio text then
    (if intensity ≠ "high" then "high" else intensity)
  else intensity

/-- Result record of EmotionDetector.detect_emotion. -/
structure EmotionResult where
  emotion : String
  score : ℚ
  details : List (String × ℚ)
deriving DecidableEq

/-- Fixed default returned on empty input (src/emotion_detector.py
line 174). -/
def default_neutral : EmotionResult := ⟨"neutral", 1, []⟩

/-- EmotionDetector.detect_emotion (src/emotion_detector.py lines 163-186),
parameterised by the active classification strategy (lexical or
model-based): on empty text the fixed neutral result, otherwise the
strategy applied to the cleaned text. -/
def detect_emotion (strategy : List Char → EmotionResult)
    (text : List Char) : EmotionResult :=
  if text = [] then default_neutral else strategy (cleanText text)

/-- Result record of EmotionDetector.analyze_with_intensity. -/
structure IntensityResult where
  emotion : String
  intensity : String
  score : ℚ
  exclamations : ℕ
  questions : ℕ
  caps_ratio : ℚ
deriving DecidableEq

/-- EmotionDetector.analyze_with_intensity (src/emotion_detector.py
lines 188-235): detect the emotion, derive the tier from score and
surface cues of the original text, report the cue diagnostics. -/
def analyze_with_intensity (strategy : List Char → EmotionResult)
    (text : List Char) : IntensityResult :=
  let r := detect_emotion strategy text
  ⟨r.emotion, intensityTier r.score text, r.score,
    exclamationCount text, questionCount text, pyRound2 (capsRatio text)⟩

/-- Outcome of the requests.post call in
VoiceModulator._apply_elevenlabs_modulation: an HTTP response with a status
code, or a raised runtime exception. -/
inductive HttpOutcome where
  | response (status : ℕ)
  | exn
deriving DecidableEq

/-- Observable outcome of _apply_elevenlabs_modulation: the returned
artifact path and whether the logged downgrade to gTTS happened. -/
structure SynthOutcome where
  artifact : Option String
  downgraded_to_gtts : Bool
deriving DecidableEq

/-- VoiceModulator._apply_elevenlabs_modulation (src/voice_modulator.py
lines 185-261), with the HTTP call and the gTTS backend abstracted as
parameters: status 200 saves and returns the premium file; any other
status, and any raised exception, falls through to
_apply_gtts_modulation with the same text and modifiers. -/
def apply_elevenlabs_modulation (outcome : HttpOutcome)
    (gtts : List Char → ℚ → ℚ → ℚ → Option String)
    (text : List Char) (rate_modifier pitch_modifier volume_modifier : ℚ)
    (premium_file : String) : SynthOutcome :=
  match outcome with
  | .response status =>
    if status = 200 then ⟨some premium_file, false⟩
    else ⟨gtts text rate_modifier pitch_modifier volume_modifier, true⟩
  | .exn => ⟨gtts text rate_modifier pitch_modifier volume_modifier, true⟩

/-- Python int() on a float/rational: truncation toward zero, computed by
truncating division of numerator by denominator. -/
def pyInt (q : ℚ) : ℤ := q.num.tdiv q.den

/-- Percentage deltas computed in _apply_elevenlabs_modulation
(src/voice_modulator.py line 228): int((modifier - 1) * 100) for rate,
pitch and volume. -/
def elevenlabs_deltas (rate_modifier pitch_modifier volume_modifier : ℚ) :
    ℤ × ℤ × ℤ :=
  (pyInt ((rate_modifier - 1) * 100),
   pyInt ((pitch_modifier - 1) * 100),
   pyInt ((volume_modifier - 1) * 100))

/-- SSML body built in _apply_elevenlabs_modulation (src/voice_modulator.py
lines 226-232); the surrounding indentation/newlines of the Python
f-string are elided. -/
def elevenlabs_ssml (text : List Char)
    (rate_modifier pitch_modifier volume_modifier : ℚ) : List Char :=
  ("<speak><prosody rate=\"").toList
    ++ (toString (elevenlabs_deltas rate_modifier pitch_modifier volume_modifier).1).toList
    ++ ("%\" pitch=\"").toList
    ++ (toString (elevenlabs_deltas rate_modifier pitch_modifier volume_modifier).2.1).toList
    ++ ("%\" volume=\"").toList
    ++ (toString (elevenlabs_deltas rate_modifier pitch_modifier volume_modifier).2.2).toList
    ++ ("%\">").toList ++ text ++ ("</prosody></speak>").toList

/-- Output filename built by _apply_pyttsx3_modulation
(src/voice_modulator.py line 114) and likewise (with .mp3) by
_apply_gtts_modulation (line 165): "speech_" ++ int(time.time()) ++
extension, as a function of the wall-clock time in seconds. -/
def speech_filename (now : ℚ) : List Char :=
  ("speech_").toList ++ (toString (pyInt now)).toList ++ (".wav").toList

/-- os.path.dirname (POSIX): the part before the final '/', with trailing
slashes stripped unless the result is all slashes; "" when there is no
'/'. -/
def os_path_dirname (p : List Char) : List Char :=
  let head := (p.reverse.dropWhile fun c => c != '/').reverse
  if !head.isEmpty && head.any (fun c => c != '/') then
    (head.reverse.dropWhile fun c => c == '/').reverse
  else head

/-- os.makedirs(dir, exist_ok=True): raises FileNotFoundError on the empty
path (deterministically); modelled as succeeding otherwise (environmental
failures such as permissions are out of scope). -/
def os_makedirs (dir : List Char) : Except String Unit :=
  if dir = [] then .error ("FileNotFoundError") else .ok ()

/-- VoiceModulator.generate_speech (src/voice_modulator.py lines 296-348),
with the selected engine abstracted as the backend parameter (each concrete
engine returns None on its internally-caught failures).  If a truthy
output_file is given, the directory part of that path is created — which
raises for a bare filename — and the output_file is otherwise unused: the
backend builds its own path. -/
def generate_speech (backend : List Char → ℚ → ℚ → ℚ → Option String)
    (text : List Char) (emotion intensity : String)
    (output_file : Option (List Char)) : Except String (Option String) :=
  let m := generate_speech_modifiers emotion intensity
  match output_file with
  | none => .ok (backend text m.1 m.2.1 m.2.2)
  | some f =>
    if f = [] then .ok (backend text m.1 m.2.1 m.2.2)
    else
      match os_makedirs (os_path_dirname f) with
      | .error e => .error e
      | .ok _ => .ok (backend text m.1 m.2.1 m.2.2)

/-- Output-file arguments under which generate_speech does not touch the
filesystem-failure path: the argument is absent, falsy (empty string), or
its path has a nonempty directory component. -/
def truthyDirOk (o : Option (List Char)) : Prop :=
  o = none ∨ o = some [] ∨ ∃ f, o = some f ∧ os_path_dirname f ≠ []

/-- EmpathyEngine.process (src/empathy_engine.py lines 33-61): analyze,
synthesize, return the pair.  The source wraps nothing in try/except, so an
exception raised by generate_speech propagates to the caller. -/
def process (backend : List Char → ℚ → ℚ → ℚ → Option String)
    (strategy : List Char → EmotionResult) (text : List Char)
    (output_file : Option (List Char)) :
    Except String (Option String × IntensityResult) :=
  let er := analyze_with_intensity strategy text
  match generate_speech backend text er.emotion er.intensity output_file with
  | .error e => .error e
  | .ok audio => .ok (audio, er)

/-- Adjacent-pair separation: not both characters are whitespace.  The
output of whitespace collapsing satisfies this in every adjacent pair. -/
def sepR (a b : Char) : Prop := ¬(pyIsSpace a = true ∧ pyIsSpace b = true)

/-- The literal "http" as a character list. -/
def httpToken : List Char := ['h', 't', 't', 'p']

/-- Whitespace-normal form of a string: every whitespace character is a
plain space, no two adjacent whitespace characters, and no leading or
trailing whitespace. -/
def wsClean (l : List Char) : Prop :=
  (∀ c ∈ l, pyIsSpace c = true → c = ' ') ∧
  l.Chain' sepR ∧
  (∀ c, l.head? = some c → pyIsSpace c = false) ∧
  (∀ c, l.getLast? = some c → pyIsSpace c = false)

/-! ## Helper lemmas -/

theorem pyInt_eq_floor_ceil (q : ℚ) : pyInt q = if 0 ≤ q then ⌊q⌋ else ⌈q⌉ := by
  unfold pyInt
  by_cases h : 0 ≤ q
  · rw [if_pos h, Rat.floor_def]
    exact Int.tdiv_eq_ediv (Rat.num_nonneg.mpr h) (Int.ofNat_nonneg _)
  · have hq : 0 ≤ -q := by linarith [lt_of_not_le h]
    have h1 : q.num.tdiv q.den = -((-q).num.tdiv (-q).den) := by
      rw [Rat.neg_num, Rat.neg_den, Int.neg_tdiv, neg_neg]
    have h2 : (-q).num.tdiv (-q).den = ⌊-q⌋ := by
      rw [Rat.floor_def]
      exact Int.tdiv_eq_ediv (Rat.num_nonneg.mpr hq) (Int.ofNat_nonneg _)
    rw [if_neg h, h1, h2, Int.floor_neg, neg_neg]

theorem pyInt_floor_of_nonneg (q : ℚ) (h : 0 ≤ q) : pyInt q = ⌊q⌋ := by
  rw [pyInt_eq_floor_ceil, if_pos h]

theorem pyInt_ceil_of_neg (q : ℚ) (h : q < 0) : pyInt q = ⌈q⌉ := by
  rw [pyInt_eq_floor_ceil, if_neg (not_le.mpr h)]

theorem generate_speech_eval (backend : List Char → ℚ → ℚ → ℚ → Option String)
    (text : List Char) (emotion intensity : String)
    (o : Option (List Char)) (h : truthyDirOk o) :
    generate_speech backend text emotion intensity o =
      .ok (backend text (generate_speech_modifiers emotion intensity).1
        (generate_speech_modifiers emotion intensity).2.1
        (generate_speech_modifiers emotion intensity).2.2) := by
  rcases h with h | h | ⟨f, hf, hd⟩
  · rw [h]; rfl
  · rw [h]; rfl
  · have hfne : f ≠ [] := by
      intro hnil
      exact hd (by rw [hnil]; rfl)
    rw [hf]
    simp only [generate_speech, os_makedirs, if_neg hfne, if_neg hd]

/-! ## Claim theorems -/

theorem lookup_emotion_happy :
    emotion_mapping.lookup (pyLower ("happy")) = some (12/10, 115/100, 11/10) := rfl

theorem lookup_emotion_excited :
    emotion_mapping.lookup (pyLower ("excited")) = some (13/10, 12/10, 115/100) := rfl

theorem lookup_emotion_sad :
    emotion_mapping.lookup (pyLower ("sad")) = some (9/10, 85/100, 9/10) := rfl

theorem lookup_emotion_angry :
    emotion_mapping.lookup (pyLower ("angry")) = some (11/10, 105/100, 12/10) := rfl

theorem lookup_emotion_fear :
    emotion_mapping.lookup (pyLower ("fear")) = some (115/100, 11/10, 95/100) := rfl

theorem lookup_emotion_neutral :
    emotion_mapping.lookup (pyLower ("neutral")) = some (1, 1, 1) := rfl

theorem lookup_emotion_surprise :
    emotion_mapping.lookup (pyLower ("surprise")) = some (115/100, 12/10, 115/100) := rfl

theorem lookup_emotion_positive :
    emotion_mapping.lookup (pyLower ("positive")) = some (11/10, 11/10, 105/100) := rfl

theorem lookup_emotion_negative :
    emotion_mapping.lookup (pyLower ("negative")) = some (95/100, 95/100, 95/100) := rfl

theorem lookup_emotion_concerned :
    emotion_mapping.lookup (pyLower ("concerned")) = some (95/100, 95/100, 105/100) := rfl

theorem lookup_tier_low : intensity_mapping.lookup (pyLower ("low")) = some (1/2) := rfl

theorem lookup_tier_medium : intensity_mapping.lookup (pyLower ("medium")) = some 1 := rfl

theorem lookup_tier_high : intensity_mapping.lookup (pyLower ("high")) = some (3/2) := rfl

/-- Claim C1: for every emotion label in the base mapping table, the
modifier computation of generate_speech reproduces the base triple exactly
at tier medium, moves every multiplier exactly halfway toward 1.0 at tier
low, and moves it 1.5 times as far from 1.0 (same direction) at tier
high, independently for rate, pitch and volume. -/
theorem prosody_intensity_scaling :
    ∀ e ∈ emotion_mapping,
      generate_speech_modifiers e.1 "medium" = e.2 ∧
      ((generate_speech_modifiers e.1 "low").1 - 1 = (e.2.1 - 1) / 2 ∧
       (generate_speech_modifiers e.1 "low").2.1 - 1 = (e.2.2.1 - 1) / 2 ∧
       (generate_speech_modifiers e.1 "low").2.2 - 1 = (e.2.2.2 - 1) / 2) ∧
      ((generate_speech_modifiers e.1 "high").1 - 1 = (e.2.1 - 1) * (3/2) ∧
       (generate_speech_modifiers e.1 "high").2.1 - 1 = (e.2.2.1 - 1) * (3/2) ∧
       (generate_speech_modifiers e.1 "high").2.2 - 1 = (e.2.2.2 - 1) * (3/2)) := by
  intro e he
  fin_cases he <;>
    norm_num [generate_speech_modifiers, apply_intensity, lookup_emotion_happy,
      lookup_emotion_excited, lookup_emotion_sad, lookup_emotion_angry,
      lookup_emotion_fear, lookup_emotion_neutral, lookup_emotion_surprise,
      lookup_emotion_positive, lookup_emotion_negative, lookup_emotion_concerned,
      lookup_tier_low, lookup_tier_medium, lookup_tier_high]

/-- Claim C1 witness: the happy row, scaled at each tier. -/
theorem prosody_intensity_scaling_witness :
    generate_speech_modifiers "happy" "medium" = (12/10, 115/100, 11/10) :=
  (prosody_intensity_scaling ("happy", (12/10, 115/100, 11/10))
    (List.mem_cons_self _ _)).1

/-- Claim C5: empty input returns the fixed neutral result without
invoking the classification strategy — the result is the same for every
strategy. -/
theorem empty_input_yields_neutral (strategy strategy' : List Char → EmotionResult) :
    detect_emotion strategy [] = ⟨"neutral", 1, []⟩ ∧
      detect_emotion strategy [] = detect_emotion strategy' [] :=
  ⟨rfl, rfl⟩

/-- Claim C6: whenever the ElevenLabs HTTP call does not come back with
status 200 — any other status, or a raised runtime exception — the
dispatcher returns exactly the gTTS backend's artifact for the same text
and modifiers, with the downgrade logged, and no exception propagates
(the function totally returns a value). -/
theorem premium_failure_falls_back (outcome : HttpOutcome)
    (gtts : List Char → ℚ → ℚ → ℚ → Option String)
    (text : List Char) (r p v : ℚ) (premium_file : String)
    (h : outcome ≠ .response 200) :
    apply_elevenlabs_modulation outcome gtts text r p v premium_file =
      ⟨gtts text r p v, true⟩ := by
  cases outcome with
  | response status =>
    have hs : status ≠ 200 := fun he => h (by rw [he])
    simp [apply_elevenlabs_modulation, hs]
  | exn => rfl

/-- Claim C6 witness: an HTTP 401 from the premium backend yields the gTTS
artifact. -/
theorem premium_failure_falls_back_witness :
    apply_elevenlabs_modulation (.response 401)
      (fun _ _ _ _ => some ("basic.mp3")) ("hello").toList 1 1 1 "premium.mp3" =
      ⟨some ("basic.mp3"), true⟩ :=
  premium_failure_falls_back _ _ _ _ _ _ _ (by decide)

/-- Claim C3: the lexical classifier selects the label by the fixed
polarity thresholds and computes the score as the claimed base value —
min(1, 0.5+|polarity|) for happy/sad, 0.5+|polarity| for
positive/negative, 1-|polarity| for neutral — multiplied by
0.5 + subjectivity/2 and rounded to 2 decimals. -/
theorem lexical_classifier_thresholds (polarity subjectivity : ℚ) :
    basic_sentiment_analysis polarity subjectivity =
      ((if 3/10 < polarity then "happy"
        else if polarity < -(3/10) then "sad"
        else if 1/10 < polarity then "positive"
        else if polarity < -(1/10) then "negative"
        else "neutral"),
       pyRound2
         ((if 3/10 < polarity ∨ polarity < -(3/10) then min 1 (1/2 + |polarity|)
           else if 1/10 < polarity ∨ polarity < -(1/10) then 1/2 + |polarity|
           else 1 - |polarity|) * (1/2 + subjectivity / 2))) := by
  simp only [basic_sentiment_analysis]
  by_cases h1 : 3/10 < polarity
  · have ha : |polarity| = polarity := abs_of_pos (by linarith)
    simp only [if_pos h1,
      if_pos (Or.inl h1 : 3/10 < polarity ∨ polarity < -(3/10)), ha]
  · by_cases h2 : polarity < -(3/10)
    · have ha : |polarity| = -polarity := abs_of_neg (by linarith)
      simp only [if_neg h1, if_pos h2,
        if_pos (Or.inr h2 : 3/10 < polarity ∨ polarity < -(3/10)), ha,
        sub_eq_add_neg]
    · have hor : ¬(3/10 < polarity ∨ polarity < -(3/10)) := not_or.mpr ⟨h1, h2⟩
      by_cases h3 : 1/10 < polarity
      · have ha : |polarity| = polarity := abs_of_pos (by linarith)
        simp only [if_neg h1, if_neg h2, if_pos h3, if_neg hor,
          if_pos (Or.inl h3 : 1/10 < polarity ∨ polarity < -(1/10)), ha]
      · by_cases h4 : polarity < -(1/10)
        · have ha : |polarity| = -polarity := abs_of_neg (by linarith)
          simp only [if_neg h1, if_neg h2, if_neg h3, if_pos h4, if_neg hor,
            if_pos (Or.inr h4 : 1/10 < polarity ∨ polarity < -(1/10)), ha,
            sub_eq_add_neg]
        · have hor2 : ¬(1/10 < polarity ∨ polarity < -(1/10)) :=
            not_or.mpr ⟨h3, h4⟩
          simp only [if_neg h1, if_neg h2, if_neg h3, if_neg h4, if_neg hor,
            if_neg hor2]

/-- Claim C4: the intensity estimator takes the base tier from the score
(low below 0.4, medium below 0.7, else high), forces the tier to high —
never downgrading — when the text has more than 2 exclamation marks or a
caps ratio above 0.3, and in particular any text with exactly 4
exclamation marks gets tier high regardless of the score. -/
theorem intensity_tier_escalation (score : ℚ) (text : List Char) :
    (intensityTier score text =
      if 2 < exclamationCount text ∨ 3/10 < capsRatio text then "high"
      else if score < 4/10 then "low"
      else if score < 7/10 then "medium"
      else "high") ∧
    (exclamationCount text = 4 → intensityTier score text = "high") := by
  constructor
  · unfold intensityTier
    split_ifs <;> simp_all
  · intro h4
    unfold intensityTier
    have hc : 2 < exclamationCount text ∨ 3/10 < capsRatio text :=
      Or.inl (by omega)
    rw [if_pos hc]
    split_ifs <;> simp_all

/-- Claim C4 witness: a text with 4 exclamation marks is forced to tier
high even though its score 0.1 alone would give tier low. -/
theorem intensity_tier_escalation_witness :
    intensityTier (1/10) ['W', 'o', 'w', '!', '!', '!', '!'] = "high" :=
  (intensity_tier_escalation (1/10) _).2 (by decide)

/-- Claim C7 counterexample: with a perfectly healthy backend and
classifier, process called with the bare-filename output path "out.wav"
raises FileNotFoundError (os.makedirs("") inside generate_speech) instead
of returning an (audio_path, emotion_result) tuple. -/
theorem process_propagates_exception :
    process (fun _ _ _ _ => some ("speech_1.wav")) (fun _ => default_neutral)
      ("hi").toList (some ("out.wav").toList) = .error ("FileNotFoundError") :=
  rfl

/-- Claim C7 (amended): unless the caller passes an output_file that is a
bare filename (nonempty, with empty directory part), process always
returns a well-formed pair whose audio component is exactly the backend's
result — null exactly when synthesis fails — and whose second component is
the populated emotion analysis. -/
theorem process_returns_pair (backend : List Char → ℚ → ℚ → ℚ → Option String)
    (strategy : List Char → EmotionResult) (text : List Char)
    (o : Option (List Char)) (h : truthyDirOk o) :
    process backend strategy text o =
      .ok (backend text
            (generate_speech_modifiers (analyze_with_intensity strategy text).emotion
              (analyze_with_intensity strategy text).intensity).1
            (generate_speech_modifiers (analyze_with_intensity strategy text).emotion
              (analyze_with_intensity strategy text).intensity).2.1
            (generate_speech_modifiers (analyze_with_intensity strategy text).emotion
              (analyze_with_intensity strategy text).intensity).2.2,
          analyze_with_intensity strategy text) := by
  unfold process
  simp only []
  rw [generate_speech_eval _ _ _ _ _ h]

/-- Claim C7 witness: with no output path, process returns the ok pair. -/
theorem process_returns_pair_witness :
    process (fun _ _ _ _ => some ("speech_1.wav")) (fun _ => default_neutral)
      ("hi").toList none =
      .ok (some ("speech_1.wav"),
        analyze_with_intensity (fun _ => default_neutral) ("hi").toList) :=
  process_returns_pair _ _ _ none (Or.inl rfl)

/-- Claim C10 counterexample: two values of the output_file argument for
which generate_speech does not return the same result: with None it
returns the backend's artifact, with the bare filename "out.wav" it
raises. -/
theorem output_file_alters_outcome :
    generate_speech (fun _ _ _ _ => some ("speech_1.wav")) ("hi").toList
        "neutral" "medium" none ≠
      generate_speech (fun _ _ _ _ => some ("speech_1.wav")) ("hi").toList
        "neutral" "medium" (some ("out.wav").toList) := by
  intro h
  exact Except.noConfusion h

/-- Claim C10 (amended): for any two output_file arguments that are
absent, falsy, or carry a nonempty directory component, generate_speech
returns the identical result, and that result is always the backend's own
artifact — the output_file argument never determines the returned audio
path. -/
theorem output_file_no_influence (backend : List Char → ℚ → ℚ → ℚ → Option String)
    (text : List Char) (emotion intensity : String)
    (o₁ o₂ : Option (List Char)) (h₁ : truthyDirOk o₁) (h₂ : truthyDirOk o₂) :
    generate_speech backend text emotion intensity o₁ =
      generate_speech backend text emotion intensity o₂ ∧
    generate_speech backend text emotion intensity o₁ =
      .ok (backend text (generate_speech_modifiers emotion intensity).1
        (generate_speech_modifiers emotion intensity).2.1
        (generate_speech_modifiers emotion intensity).2.2) :=
  ⟨(generate_speech_eval _ _ _ _ _ h₁).trans
      (generate_speech_eval _ _ _ _ _ h₂).symm,
    generate_speech_eval _ _ _ _ _ h₁⟩

/-- Claim C10 witness: passing None and passing "output/a.wav" produce the
identical result. -/
theorem output_file_no_influence_witness :
    generate_speech (fun _ _ _ _ => some ("speech_1.wav")) ("hi").toList
        "neutral" "medium" none =
      generate_speech (fun _ _ _ _ => some ("speech_1.wav")) ("hi").toList
        "neutral" "medium" (some ("output/a.wav").toList) :=
  (output_file_no_influence _ _ _ _ none (some ("output/a.wav").toList)
    (Or.inl rfl) (Or.inr (Or.inr ⟨_, rfl, by decide⟩))).1

/-- Claim C9: the output filename encodes int(time.time()) — whole
seconds — so two distinct back-to-back calls in the same wall-clock
second (here at times 5.1s and 5.9s) get the identical filename, and the
second call overwrites the first, contradicting uniqueness per call. -/
theorem speech_filename_collision :
    speech_filename (mkRat 51 10) = speech_filename (mkRat 59 10) ∧
      (mkRat 51 10 : ℚ) ≠ mkRat 59 10 := by
  decide

/-- Claim C8 counterexample: the code converts a multiplier with Python
int(), i.e. truncation toward zero, not rounding to the nearest integer:
for pitch_modifier 1.075 the computed delta is int(7.5) = 7, while
rounding 7.5 to an integer gives 8 (both for round-half-up and for
round-half-to-even). -/
theorem elevenlabs_delta_not_rounded :
    (elevenlabs_deltas 1 (1075/1000) 1).2.1 = 7 ∧
      round (((1075/1000 : ℚ) - 1) * 100) = 8 := by
  constructor
  · show pyInt (((1075/1000 : ℚ) - 1) * 100) = 7
    have h : ((1075/1000 : ℚ) - 1) * 100 = 15/2 := by norm_num
    rw [h, pyInt_eq_floor_ceil]
    norm_num
  · norm_num [round_eq]

/-- Claim C8 (amended): each multiplier is converted to the percentage
delta (multiplier-1)*100 truncated toward zero to an integer (Python
int(): floor for a nonnegative argument, ceiling for a negative one), and
the three resulting integers are embedded in the SSML prosody markup sent
to the remote call. -/
theorem elevenlabs_delta_truncation (r p v : ℚ) (text : List Char) :
    ((0 ≤ (r - 1) * 100 → (elevenlabs_deltas r p v).1 = ⌊(r - 1) * 100⌋) ∧
     ((r - 1) * 100 < 0 → (elevenlabs_deltas r p v).1 = ⌈(r - 1) * 100⌉)) ∧
    ((0 ≤ (p - 1) * 100 → (elevenlabs_deltas r p v).2.1 = ⌊(p - 1) * 100⌋) ∧
     ((p - 1) * 100 < 0 → (elevenlabs_deltas r p v).2.1 = ⌈(p - 1) * 100⌉)) ∧
    ((0 ≤ (v - 1) * 100 → (elevenlabs_deltas r p v).2.2 = ⌊(v - 1) * 100⌋) ∧
     ((v - 1) * 100 < 0 → (elevenlabs_deltas r p v).2.2 = ⌈(v - 1) * 100⌉)) ∧
    ((toString (elevenlabs_deltas r p v).1).toList <:+: elevenlabs_ssml text r p v ∧
     (toString (elevenlabs_deltas r p v).2.1).toList <:+: elevenlabs_ssml text r p v ∧
     (toString (elevenlabs_deltas r p v).2.2).toList <:+: elevenlabs_ssml text r p v) := by
  refine ⟨⟨pyInt_floor_of_nonneg _, pyInt_ceil_of_neg _⟩,
    ⟨pyInt_floor_of_nonneg _, pyInt_ceil_of_neg _⟩,
    ⟨pyInt_floor_of_nonneg _, pyInt_ceil_of_neg _⟩, ?_, ?_, ?_⟩
  · refine ⟨("<speak><prosody rate=\"").toList,
      ("%\" pitch=\"").toList
        ++ (toString (elevenlabs_deltas r p v).2.1).toList
        ++ ("%\" volume=\"").toList
        ++ (toString (elevenlabs_deltas r p v).2.2).toList
        ++ ("%\">").toList ++ text ++ ("</prosody></speak>").toList, ?_⟩
    simp [elevenlabs_ssml, List.append_assoc]
  · refine ⟨("<speak><prosody rate=\"").toList
        ++ (toString (elevenlabs_deltas r p v).1).toList
        ++ ("%\" pitch=\"").toList,
      ("%\" volume=\"").toList
        ++ (toString (elevenlabs_deltas r p v).2.2).toList
        ++ ("%\">").toList ++ text ++ ("</prosody></speak>").toList, ?_⟩
    simp [elevenlabs_ssml, List.append_assoc]
  · refine ⟨("<speak><prosody rate=\"").toList
        ++ (toString (elevenlabs_deltas r p v).1).toList
        ++ ("%\" pitch=\"").toList
        ++ (toString (elevenlabs_deltas r p v).2.1).toList
        ++ ("%\" volume=\"").toList,
      ("%\">").toList ++ text ++ ("</prosody></speak>").toList, ?_⟩
    simp [elevenlabs_ssml, List.append_assoc]

/-- Claim C8 witness: for rate multiplier 1.2 the delta is the floor of
(1.2-1)*100. -/
theorem elevenlabs_delta_truncation_witness :
    (elevenlabs_deltas (12/10) (85/100) 1).1 = ⌊(((12/10 : ℚ) - 1) * 100)⌋ :=
  (elevenlabs_delta_truncation (12/10) (85/100) 1 []).1.1 (by norm_num)

theorem collapseWs_single (c : Char) :
    collapseWs [c] = if pyIsSpace c then [' '] else [c] := rfl

theorem collapseWs_cons2 (c d : Char) (rest : List Char) :
    collapseWs (c :: d :: rest) =
      if pyIsSpace c then
        if pyIsSpace d then collapseWs (d :: rest)
        else ' ' :: collapseWs (d :: rest)
      else c :: collapseWs (d :: rest) := rfl

theorem dropWhile_head?_no (p : Char → Bool) :
    ∀ (l : List Char) (c : Char), (l.dropWhile p).head? = some c → p c = false := by
  intro l
  induction l with
  | nil => intro c h; simp [List.dropWhile] at h
  | cons a t ih =>
    intro c h
    cases hpa : p a with
    | true =>
      rw [List.dropWhile_cons, if_pos hpa] at h
      exact ih c h
    | false =>
      rw [List.dropWhile_cons, if_neg (by simp [hpa])] at h
      simp only [List.head?_cons, Option.some.injEq] at h
      rw [h] at hpa
      exact hpa

theorem collapseWs_ws_space :
    ∀ (l : List Char), ∀ c ∈ collapseWs l, pyIsSpace c = true → c = ' ' := by
  intro l
  induction l using collapseWs.induct with
  | case1 => simp [collapseWs]
  | case2 c h => simp [collapseWs, h]
  | case3 c h => simp [collapseWs, h]
  | case4 c d rest h hd ih =>
    rw [collapseWs_cons2, if_pos h, if_pos hd]
    exact ih
  | case5 c d rest h hd ih =>
    rw [collapseWs_cons2, if_pos h, if_neg hd]
    intro x hx hw
    rcases List.mem_cons.mp hx with rfl | hx
    · rfl
    · exact ih x hx hw
  | case6 c d rest h ih =>
    rw [collapseWs_cons2, if_neg h]
    intro x hx hw
    rcases List.mem_cons.mp hx with rfl | hx
    · exact absurd hw h
    · exact ih x hx hw

theorem collapseWs_head?_ws :
    ∀ (l : List Char) (c : Char), l.head? = some c → pyIsSpace c = true →
      (collapseWs l).head? = some ' ' := by
  intro l
  induction l using collapseWs.induct with
  | case1 => intro c h; cases h
  | case2 c h =>
    intro x hx hw
    rw [collapseWs_single, if_pos h]
    rfl
  | case3 c h =>
    intro x hx hw
    simp only [List.head?_cons, Option.some.injEq] at hx
    subst hx
    exact absurd hw h
  | case4 c d rest h hd ih =>
    intro x hx hw
    rw [collapseWs_cons2, if_pos h, if_pos hd]
    exact ih d rfl hd
  | case5 c d rest h hd ih =>
    intro x hx hw
    rw [collapseWs_cons2, if_pos h, if_neg hd]
    rfl
  | case6 c d rest h ih =>
    intro x hx hw
    simp only [List.head?_cons, Option.some.injEq] at hx
    subst hx
    exact absurd hw h

theorem collapseWs_head?_nonws (l : List Char) (c : Char)
    (hx : l.head? = some c) (hw : ¬pyIsSpace c = true) :
    (collapseWs l).head? = some c := by
  match l with
  | [] => cases hx
  | [a] =>
    simp only [List.head?_cons, Option.some.injEq] at hx
    subst hx
    rw [collapseWs_single, if_neg hw]
    rfl
  | a :: d :: rest =>
    simp only [List.head?_cons, Option.some.injEq] at hx
    subst hx
    rw [collapseWs_cons2, if_neg hw]
    rfl

theorem collapseWs_chain' : ∀ l : List Char, (collapseWs l).Chain' sepR := by
  intro l
  induction l using collapseWs.induct with
  | case1 => simp [collapseWs]
  | case2 c h => rw [collapseWs_single, if_pos h]; exact List.chain'_singleton _
  | case3 c h => rw [collapseWs_single, if_neg h]; exact List.chain'_singleton _
  | case4 c d rest h hd ih =>
    rw [collapseWs_cons2, if_pos h, if_pos hd]
    exact ih
  | case5 c d rest h hd ih =>
    rw [collapseWs_cons2, if_pos h, if_neg hd]
    rw [List.chain'_cons']
    refine ⟨?_, ih⟩
    intro y hy
    have hnd : (collapseWs (d :: rest)).head? = some d :=
      collapseWs_head?_nonws _ _ rfl hd
    rw [hnd] at hy
    simp only [Option.mem_def, Option.some.injEq] at hy
    subst hy
    exact fun hc => hd hc.2
  | case6 c d rest h ih =>
    rw [collapseWs_cons2, if_neg h]
    rw [List.chain'_cons']
    refine ⟨?_, ih⟩
    intro y hy
    exact fun hc => h hc.1

theorem collapseWs_eq_self :
    ∀ l : List Char, (∀ c ∈ l, pyIsSpace c = true → c = ' ') →
      l.Chain' sepR → collapseWs l = l := by
  intro l
  induction l using collapseWs.induct with
  | case1 => intro _ _; rfl
  | case2 c h =>
    intro hmem _
    rw [collapseWs_single, if_pos h, hmem c (by simp) h]
  | case3 c h =>
    intro _ _
    rw [collapseWs_single, if_neg h]
  | case4 c d rest h hd ih =>
    intro hmem hch
    rw [List.chain'_cons'] at hch
    have := hch.1 d (by simp)
    exact absurd ⟨h, hd⟩ this
  | case5 c d rest h hd ih =>
    intro hmem hch
    rw [collapseWs_cons2, if_pos h, if_neg hd]
    have hc : c = ' ' := hmem c (by simp) h
    rw [ih (fun x hx hw => hmem x (List.mem_cons_of_mem _ hx) hw) hch.tail, hc]
  | case6 c d rest h ih =>
    intro hmem hch
    rw [collapseWs_cons2, if_neg h]
    rw [ih (fun x hx hw => hmem x (List.mem_cons_of_mem _ hx) hw) hch.tail]

theorem collapseWs_prefix_rev :
    ∀ (l s : List Char), (∀ c ∈ s, ¬pyIsSpace c = true) →
      s <+: collapseWs l → s <+: l := by
  intro l
  induction l using collapseWs.induct with
  | case1 => intro s _ hp; simpa [collapseWs] using hp
  | case2 c h =>
    intro s hs hp
    rw [collapseWs_single, if_pos h] at hp
    match s, hp with
    | [], _ => exact List.nil_prefix
    | x :: s', hp =>
      rw [List.cons_prefix_cons] at hp
      exact absurd (by rw [hp.1]; rfl) (hs x (by simp))
  | case3 c h =>
    intro s hs hp
    rwa [collapseWs_single, if_neg h] at hp
  | case4 c d rest h hd ih =>
    intro s hs hp
    rw [collapseWs_cons2, if_pos h, if_pos hd] at hp
    match s, hp with
    | [], _ => exact List.nil_prefix
    | x :: s', hp =>
      have hh : (collapseWs (d :: rest)).head? = some ' ' :=
        collapseWs_head?_ws _ d rfl hd
      have hx : (collapseWs (d :: rest)).head? = some x := by
        rcases hp with ⟨t, ht⟩
        rw [← ht]
        rfl
      rw [hh] at hx
      simp only [Option.some.injEq] at hx
      exact absurd (by rw [← hx]; rfl) (hs x (by simp))
  | case5 c d rest h hd ih =>
    intro s hs hp
    rw [collapseWs_cons2, if_pos h, if_neg hd] at hp
    match s, hp with
    | [], _ => exact List.nil_prefix
    | x :: s', hp =>
      rw [List.cons_prefix_cons] at hp
      exact absurd (by rw [hp.1]; rfl) (hs x (by simp))
  | case6 c d rest h ih =>
    intro s hs hp
    rw [collapseWs_cons2, if_neg h] at hp
    match s, hp with
    | [], _ => exact List.nil_prefix
    | x :: s', hp =>
      rw [List.cons_prefix_cons] at hp
      rw [List.cons_prefix_cons]
      exact ⟨hp.1, ih s' (fun y hy => hs y (List.mem_cons_of_mem _ hy)) hp.2⟩

theorem collapseWs_infix_rev :
    ∀ (l s : List Char), (∀ c ∈ s, ¬pyIsSpace c = true) →
      s <:+: collapseWs l → s <:+: l := by
  intro l
  induction l using collapseWs.induct with
  | case1 => intro s _ hp; simpa [collapseWs] using hp
  | case2 c h =>
    intro s hs hp
    rw [collapseWs_single, if_pos h] at hp
    rw [ List.infix_cons_iff] at hp
    rcases hp with hp | hp
    · match s, hp with
      | [], _ => exact List.nil_infix
      | x :: s', hp =>
        rw [List.cons_prefix_cons] at hp
        exact absurd (by rw [hp.1]; rfl) (hs x (by simp))
    · rw [List.infix_nil] at hp
      rw [hp]
      exact List.nil_infix
  | case3 c h =>
    intro s hs hp
    rwa [collapseWs_single, if_neg h] at hp
  | case4 c d rest h hd ih =>
    intro s hs hp
    rw [collapseWs_cons2, if_pos h, if_pos hd] at hp
    exact List.infix_cons (ih s hs hp)
  | case5 c d rest h hd ih =>
    intro s hs hp
    rw [collapseWs_cons2, if_pos h, if_neg hd] at hp
    rw [ List.infix_cons_iff] at hp
    rcases hp with hp | hp
    · match s, hp with
      | [], _ => exact List.nil_infix
      | x :: s', hp =>
        rw [List.cons_prefix_cons] at hp
        exact absurd (by rw [hp.1]; rfl) (hs x (by simp))
    · exact List.infix_cons (ih s hs hp)
  | case6 c d rest h ih =>
    intro s hs hp
    rw [collapseWs_cons2, if_neg h] at hp
    rw [ List.infix_cons_iff] at hp
    rcases hp with hp | hp
    · match s, hp with
      | [], _ => exact List.nil_infix
      | x :: s', hp =>
        rw [List.cons_prefix_cons] at hp
        rcases hp with ⟨rfl, hp2⟩
        exact List.IsPrefix.isInfix ( List.cons_prefix_cons.mpr
          ⟨rfl, collapseWs_prefix_rev _ s'
            (fun y hy => hs y (List.mem_cons_of_mem _ hy)) hp2⟩)
    · exact List.infix_cons (ih s hs hp)

theorem pyStrip_prefix_dropWhile (l : List Char) :
    pyStrip l <+: l.dropWhile pyIsSpace := by
  unfold pyStrip
  have h2 : ((l.dropWhile pyIsSpace).reverse.dropWhile pyIsSpace) <:+
      (l.dropWhile pyIsSpace).reverse := List.dropWhile_suffix _
  have h3 := ( List.reverse_prefix).mpr h2
  rwa [List.reverse_reverse] at h3

theorem pyStrip_within (l : List Char) : pyStrip l <:+: l :=
  List.IsInfix.trans ( List.IsPrefix.isInfix (pyStrip_prefix_dropWhile l))
    ( List.IsSuffix.isInfix (List.dropWhile_suffix _))

theorem pyStrip_head?_nonws (l : List Char) :
    ∀ c, (pyStrip l).head? = some c → pyIsSpace c = false := by
  intro c hc
  obtain ⟨t, ht⟩ := pyStrip_prefix_dropWhile l
  have : (l.dropWhile pyIsSpace).head? = some c := by
    rw [← ht, List.head?_append, hc]
    rfl
  exact dropWhile_head?_no pyIsSpace l c this

theorem pyStrip_getLast?_nonws (l : List Char) :
    ∀ c, (pyStrip l).getLast? = some c → pyIsSpace c = false := by
  intro c hc
  unfold pyStrip at hc
  rw [List.getLast?_reverse] at hc
  exact dropWhile_head?_no pyIsSpace _ c hc

theorem pyStrip_eq_self (l : List Char)
    (hh : ∀ c, l.head? = some c → pyIsSpace c = false)
    (hl : ∀ c, l.getLast? = some c → pyIsSpace c = false) :
    pyStrip l = l := by
  have hA : l.dropWhile pyIsSpace = l := by
    cases l with
    | nil => rfl
    | cons a t =>
      rw [List.dropWhile_cons, if_neg (by simp [hh a rfl])]
  have hB : l.reverse.dropWhile pyIsSpace = l.reverse := by
    cases hrev : l.reverse with
    | nil => rfl
    | cons a t =>
      have ha : l.getLast? = some a := by
        rw [← List.head?_reverse, hrev]
        rfl
      rw [List.dropWhile_cons, if_neg (by simp [hl a ha])]
  unfold pyStrip
  rw [hA, hB, List.reverse_reverse]

theorem urlMatchAt_match {c : Char} {rest : List Char}
    (h : urlMatchAt c rest = true) : httpToken <+: c :: rest := by
  unfold urlMatchAt at h
  simp only [Bool.and_eq_true, beq_iff_eq] at h
  obtain ⟨⟨hc, ht⟩, _⟩ := h
  subst hc
  refine ⟨rest.drop 3, ?_⟩
  show 'h' :: ('t' :: 't' :: 'p' :: rest.drop 3) = 'h' :: rest
  have hr := List.take_append_drop 3 rest
  rw [ht] at hr
  rw [← hr]
  rfl

theorem removeUrlsF_succ_cons (n : ℕ) (c : Char) (rest : List Char) :
    removeUrlsF (n + 1) (c :: rest) =
      if urlMatchAt c rest then
        removeUrlsF n ((rest.drop 3).dropWhile fun d => !pyIsSpace d)
      else c :: removeUrlsF n rest := rfl

theorem httpToken_nonws : ∀ c ∈ httpToken, ¬pyIsSpace c = true := by decide

theorem removeUrlsF_eq_self :
    ∀ (fuel : ℕ) (l : List Char), ¬ httpToken <:+: l → removeUrlsF fuel l = l := by
  intro fuel
  induction fuel with
  | zero => intro l h; cases l <;> rfl
  | succ n ih =>
    intro l h
    match l with
    | [] => rfl
    | c :: rest =>
      cases hm : urlMatchAt c rest with
      | true => exact absurd ( List.IsPrefix.isInfix (urlMatchAt_match hm)) h
      | false =>
        rw [removeUrlsF_succ_cons, if_neg (by simp [hm]),
          ih rest (fun hi => h (List.infix_cons hi))]

/-- Claim C2 counterexample: the normalizer is not idempotent, and its
output can end in whitespace: on "a http://b" the whitespace pass runs
before URL removal, so the removed URL leaves a trailing space, and a
second normalization strips it. -/
theorem cleanText_not_idempotent :
    cleanText (cleanText ['a', ' ', 'h', 't', 't', 'p', ':', '/', '/', 'b']) ≠
        cleanText ['a', ' ', 'h', 't', 't', 'p', ':', '/', '/', 'b'] ∧
      (cleanText ['a', ' ', 'h', 't', 't', 'p', ':', '/', '/', 'b']).getLast? =
        some ' ' := by
  decide

/-- Claim C2 (amended): on every input that contains no "http" substring
the normalizer is idempotent and its output is whitespace-normal (runs
collapsed to single spaces, no leading or trailing whitespace); in
general this fails, because URL removal runs after whitespace collapsing
and stripping and can leave residual spaces. -/
theorem cleanText_idempotent_no_url (t : List Char) (h : ¬ httpToken <:+: t) :
    cleanText (cleanText t) = cleanText t ∧ wsClean (cleanText t) := by
  have hA_no : ¬ httpToken <:+: collapseWs t :=
    fun hi => h (collapseWs_infix_rev t _ httpToken_nonws hi)
  have hs_no : ¬ httpToken <:+: pyStrip (collapseWs t) :=
    fun hi => hA_no (hi.trans (pyStrip_within _))
  have hclean : cleanText t = pyStrip (collapseWs t) := by
    show removeUrls (pyStrip (collapseWs t)) = _
    rw [removeUrls, removeUrlsF_eq_self _ _ hs_no]
  have hmem : ∀ c ∈ pyStrip (collapseWs t), pyIsSpace c = true → c = ' ' :=
    fun c hc => collapseWs_ws_space t c ((pyStrip_within _).subset hc)
  have hch : (pyStrip (collapseWs t)).Chain' sepR :=
    List.Chain'.infix (collapseWs_chain' t) (pyStrip_within _)
  have hidem : cleanText (pyStrip (collapseWs t)) = pyStrip (collapseWs t) := by
    show removeUrls (pyStrip (collapseWs (pyStrip (collapseWs t)))) = _
    rw [collapseWs_eq_self _ hmem hch,
      pyStrip_eq_self _ (pyStrip_head?_nonws _) (pyStrip_getLast?_nonws _),
      removeUrls, removeUrlsF_eq_self _ _ hs_no]
  refine ⟨?_, ?_⟩
  · rw [hclean]
    exact hidem
  · rw [hclean]
    exact ⟨hmem, hch, pyStrip_head?_nonws _, pyStrip_getLast?_nonws _⟩

/-- Claim C2 witness: a whitespace-heavy but URL-free input, normalized
once, is a fixed point of the normalizer, and its normal form is as
expected. -/
theorem cleanText_idempotent_no_url_witness :
    cleanText (cleanText [' ', 'a', 'b', ' ', ' ', 'c', ' ']) =
        cleanText [' ', 'a', 'b', ' ', ' ', 'c', ' '] ∧
      cleanText [' ', 'a', 'b', ' ', ' ', 'c', ' '] = ['a', 'b', ' ', 'c'] :=
  ⟨(cleanText_idempotent_no_url _ (by decide)).1, by decide⟩
